import Mathlib

set_option maxHeartbeats 1000000

/-!
A shallow embedding of the sandboxed code-execution service in `src/app.py`:
the admission semaphore, the inline `/run` handler (`run_code`), the archive
`/upload_zip` handler (`upload_zip`), the output sanitizer `_truncate`, and
the execution log (`write_log`).  Python strings are modelled as lists of
Unicode code points (`Str`); byte strings as lists of byte values.
-/

/-- Python `str`, modelled as its list of Unicode code points. -/
abbrev Str : Type := List Nat

/-- Embed a Lean string literal as a Python string value. -/
def strLit (s : String) : Str := s.data.map Char.toNat

/-- `MAX_PARALLEL_CONTAINERS = 5` (app.py line 16). -/
def MAX_PARALLEL_CONTAINERS : Nat := 5

/-- `MAX_CODE_LENGTH = 5000` (app.py line 24). -/
def MAX_CODE_LENGTH : Nat := 5000

/-- `DOCKER_IMAGE_PY` (app.py line 25). -/
def DOCKER_IMAGE_PY : Str := strLit "python:3.11-slim"

/-- `DOCKER_IMAGE_NODE` (app.py line 26). -/
def DOCKER_IMAGE_NODE : Str := strLit "node:18-slim"

/-- `EXECUTION_TIMEOUT = 10` seconds (app.py line 27). -/
def EXECUTION_TIMEOUT : Nat := 10

/-- `DOCKER_SUBPROCESS_TIMEOUT = 12` seconds (app.py line 28). -/
def DOCKER_SUBPROCESS_TIMEOUT : Nat := 12

/-- `MEMORY_LIMIT = "128m"` (app.py line 29). -/
def MEMORY_LIMIT : Str := strLit "128m"

/-- `PIDS_LIMIT = 64` (app.py line 30). -/
def PIDS_LIMIT : Nat := 64

/-- `MAX_OUTPUT_BYTES = 200_000` (app.py line 31). -/
def MAX_OUTPUT_BYTES : Nat := 200000

/-- Decimal rendering of a natural number as a Python string. -/
def natStr (n : Nat) : Str := strLit (toString n)

/-- Decimal rendering of an integer as a Python string. -/
def intStr (n : Int) : Str := strLit (toString n)

/-- UTF-8 encoding of one code point, as in Python's
`str.encode("utf-8", errors="replace")`: a lone surrogate is replaced by
`?` (0x3F); every other code point gets its standard UTF-8 bytes. -/
def utf8EncodeChar (c : Nat) : List Nat :=
  if c < 0x80 then [c]
  else if c < 0x800 then [0xC0 + c / 64, 0x80 + c % 64]
  else if 0xD800 ≤ c ∧ c ≤ 0xDFFF then [0x3F]
  else if c < 0x10000 then [0xE0 + c / 4096, 0x80 + c / 64 % 64, 0x80 + c % 64]
  else [0xF0 + c / 262144, 0x80 + c / 4096 % 64, 0x80 + c / 64 % 64, 0x80 + c % 64]

/-- Python `s.encode("utf-8", errors="replace")`. -/
def utf8Encode (s : Str) : List Nat := (s.map utf8EncodeChar).flatten

/-- One step of Python's UTF-8 decoding with `errors="replace"`: consume the
bytes of one decoded unit starting at byte `b` (remaining bytes `bs`) and
return the emitted code point (U+FFFD for an invalid or truncated maximal
subpart) together with the bytes that are left. -/
def decodeStep (b : Nat) (bs : List Nat) : Nat × List Nat :=
  if b < 0x80 then (b, bs)
  else if b < 0xC2 then (0xFFFD, bs)
  else if b ≤ 0xDF then
    match bs with
    | [] => (0xFFFD, [])
    | b2 :: bs2 =>
      if 0x80 ≤ b2 ∧ b2 ≤ 0xBF then ((b - 0xC0) * 64 + (b2 - 0x80), bs2)
      else (0xFFFD, b2 :: bs2)
  else if b ≤ 0xEF then
    match bs with
    | [] => (0xFFFD, [])
    | b2 :: bs2 =>
      if (if b = 0xE0 then 0xA0 else 0x80) ≤ b2 ∧ b2 ≤ (if b = 0xED then 0x9F else 0xBF) then
        match bs2 with
        | [] => (0xFFFD, [])
        | b3 :: bs3 =>
          if 0x80 ≤ b3 ∧ b3 ≤ 0xBF then
            ((b - 0xE0) * 4096 + (b2 - 0x80) * 64 + (b3 - 0x80), bs3)
          else (0xFFFD, b3 :: bs3)
      else (0xFFFD, b2 :: bs2)
  else if b ≤ 0xF4 then
    match bs with
    | [] => (0xFFFD, [])
    | b2 :: bs2 =>
      if (if b = 0xF0 then 0x90 else 0x80) ≤ b2 ∧ b2 ≤ (if b = 0xF4 then 0x8F else 0xBF) then
        match bs2 with
        | [] => (0xFFFD, [])
        | b3 :: bs3 =>
          if 0x80 ≤ b3 ∧ b3 ≤ 0xBF then
            match bs3 with
            | [] => (0xFFFD, [])
            | b4 :: bs4 =>
              if 0x80 ≤ b4 ∧ b4 ≤ 0xBF then
                ((b - 0xF0) * 262144 + (b2 - 0x80) * 4096 + (b3 - 0x80) * 64 + (b4 - 0x80), bs4)
              else (0xFFFD, b4 :: bs4)
          else (0xFFFD, b3 :: bs3)
      else (0xFFFD, b2 :: bs2)
  else (0xFFFD, bs)

theorem decodeStep_snd_length (b : Nat) (bs : List Nat) :
    (decodeStep b bs).2.length ≤ bs.length := by
  unfold decodeStep
  repeat' split
  all_goals simp_all
  all_goals omega

/-- Python `bytes.decode("utf-8", errors="replace")`. -/
def utf8DecodeReplace : List Nat → Str
  | [] => []
  | b :: bs => (decodeStep b bs).1 :: utf8DecodeReplace (decodeStep b bs).2
termination_by l => l.length
decreasing_by
  simp only [List.length_cons]
  exact Nat.lt_succ_of_le (decodeStep_snd_length _ _)

theorem utf8DecodeReplace_length : ∀ l : List Nat, (utf8DecodeReplace l).length ≤ l.length
  | [] => by simp [utf8DecodeReplace]
  | b :: bs => by
    have h1 := decodeStep_snd_length b bs
    have h2 := utf8DecodeReplace_length (decodeStep b bs).2
    simp only [utf8DecodeReplace, List.length_cons]
    omega
termination_by l => l.length
decreasing_by
  simp only [List.length_cons]
  exact Nat.lt_succ_of_le (decodeStep_snd_length _ _)

theorem one_le_utf8EncodeChar_length (c : Nat) : 1 ≤ (utf8EncodeChar c).length := by
  unfold utf8EncodeChar
  repeat' split
  all_goals simp

theorem length_le_utf8Encode_length (s : Str) : s.length ≤ (utf8Encode s).length := by
  induction s with
  | nil => simp [utf8Encode]
  | cons c cs ih =>
    have h := one_le_utf8EncodeChar_length c
    simp only [utf8Encode, List.map_cons, List.flatten_cons, List.length_append,
      List.length_cons] at *
    omega

/-- app.py `_truncate` (lines 59-65): `None` becomes the empty string; a text
whose UTF-8 encoding exceeds `MAX_OUTPUT_BYTES` is truncated at the byte cap,
re-decoded with replacement, and suffixed with the fixed marker. -/
def _truncate (s : Option Str) : Str :=
  match s with
  | none => []
  | some s =>
    let b := utf8Encode s
    if b.length > MAX_OUTPUT_BYTES then
      utf8DecodeReplace (b.take MAX_OUTPUT_BYTES) ++ strLit "\n\n[output truncated]"
    else s

/-- A JSON value, as far as the handlers inspect one: a string, or anything
that is not a string. -/
inductive JVal
  | str (s : Str)
  | notStr
deriving DecidableEq

/-- The JSON object body of an inline request: the two fields `run_code` reads. -/
structure JsonBody where
  code : Option JVal := none
  language : Option JVal := none
deriving DecidableEq

/-- Outcome of `request.get_json()`: a value (`None` or a JSON object), or an
exception propagating out of the call. -/
inductive GetJsonR
  | val (b : Option JsonBody)
  | exc (msg : Str)
deriving DecidableEq

/-- Outcome of the inline `subprocess.run` call (binary pipes, app.py 125-149). -/
inductive SubprocR
  | completed (returncode : Int) (stdout stderr : List Nat)
  | timeoutExpired
  | fileNotFound (msg : Str)
  | exc (msg : Str)
deriving DecidableEq

/-- Outcome of the archive `subprocess.run` call (text pipes, app.py 244-259;
only `TimeoutExpired` and `FileNotFoundError` are caught there). -/
inductive ZSubprocR
  | completed (returncode : Int) (stdout stderr : Str)
  | timeoutExpired
  | fileNotFound
  | exc (msg : Str)
deriving DecidableEq

/-- A JSON response body as produced by the handlers. -/
inductive Resp
  | outErr (output err : Str)
  | errOnly (err : Str)
  | zipResult (output err : Str) (return_code : Int)
deriving DecidableEq

/-- How a handler invocation ends: an HTTP response, or an uncaught exception. -/
inductive HResult
  | response (status : Nat) (body : Resp)
  | raised (msg : Str)
deriving DecidableEq

/-- One `write_log` record: the five arguments plus the timestamp (app.py 37-56). -/
structure LogEntry where
  time : Str
  status : Str
  code : Str
  returnCode : Int
  output : Str
  err : Str
deriving DecidableEq

/-- The text block `write_log` appends for one entry (app.py 39-54). -/
def formatLog (e : LogEntry) : Str :=
  strLit "\n----------------------------\nTIME: " ++ e.time
  ++ strLit "\nSTATUS: " ++ e.status
  ++ strLit "\nRETURN CODE: " ++ intStr e.returnCode
  ++ strLit "\n\nUSER CODE:\n" ++ e.code
  ++ strLit "\n\nOUTPUT:\n" ++ e.output
  ++ strLit "\n\nERROR:\n" ++ e.err
  ++ strLit "\n----------------------------\n"

/-- One `subprocess.run(docker_command, ...)` sandbox launch: the argv and the
stdin payload fed to it. -/
structure LaunchSpec where
  argv : List Str
  stdin : Option (List Nat) := none
deriving DecidableEq

/-- One `docker rm -f <name>` forced-termination call and its timeout. -/
structure RmCall where
  name : Str
  timeoutSec : Nat
deriving DecidableEq

/-- Effects and outcome of a handler's `try` body, before its `finally` runs. -/
structure BodyOut where
  launches : List LaunchSpec := []
  rmCalls : List RmCall := []
  logs : List LogEntry := []
  tempDirCreated : Bool := false
  result : HResult
deriving DecidableEq

/-- The observable effects and outcome of one full handler invocation. -/
structure HandlerRun where
  acquired : Bool
  releases : Nat
  launches : List LaunchSpec
  rmCalls : List RmCall
  logs : List LogEntry
  tempDirCreated : Bool
  rmtreeCalls : Nat
  result : HResult
deriving DecidableEq

/-- The hardened docker argv built by `run_code` (app.py 108-121). -/
def dockerCommandInline (containerName image : Str) (runCmd : List Str) : List Str :=
  [strLit "docker", strLit "run", strLit "--rm",
   strLit "--name", containerName,
   strLit "--network", strLit "none",
   strLit "--memory", MEMORY_LIMIT,
   strLit "--pids-limit", natStr PIDS_LIMIT,
   strLit "--read-only",
   strLit "--cap-drop", strLit "ALL",
   strLit "--security-opt", strLit "no-new-privileges",
   strLit "--tmpfs", strLit "/tmp:rw,size=16m",
   strLit "-i",
   image] ++ runCmd

/-- The hardened docker argv built by `upload_zip` (app.py 228-241): same
hardening, no `-i`, plus the read-only project mount. -/
def dockerCommandZip (containerName tempDir image : Str) (runCmd : List Str) : List Str :=
  [strLit "docker", strLit "run", strLit "--rm",
   strLit "--name", containerName,
   strLit "--network", strLit "none",
   strLit "--memory", MEMORY_LIMIT,
   strLit "--pids-limit", natStr PIDS_LIMIT,
   strLit "--read-only",
   strLit "--cap-drop", strLit "ALL",
   strLit "--security-opt", strLit "no-new-privileges",
   strLit "--tmpfs", strLit "/tmp:rw,size=16m",
   strLit "-v", tempDir ++ strLit ":/app:ro",
   image] ++ runCmd

/-- `language == "javascript" or language == "js"` on the request's language
field (app.py 100; absent field defaults to "python", a non-string value never
equals either literal). -/
def langIsJs : Option JVal → Bool
  | some (JVal.str l) => l == strLit "javascript" || l == strLit "js"
  | some JVal.notStr => false
  | none => false

/-- The environment of one `run_code` invocation: what its collaborators
(the semaphore, Flask's `get_json`, `uuid`, the clock, `subprocess`) return. -/
structure RunEnv where
  acquireSucceeds : Bool
  getJson : GetJsonR
  runId : Str
  now : Str
  subproc : SubprocR
  rmFails : Bool
deriving DecidableEq

/-- Classification and logging of a completed inline run (app.py 151-168),
operating on the sanitized stdout and stderr. -/
def inlineFinish (now codeS : Str) (launch : LaunchSpec) (rc : Int)
    (outB errB : List Nat) : BodyOut :=
  let stdout := _truncate (some (utf8DecodeReplace outB))
  let stderr := _truncate (some (utf8DecodeReplace errB))
  if rc ≠ 0 ∧ stdout = [] ∧ stderr = [] then
    { launches := [launch],
      logs := [{ time := now, status := strLit "EXECUTION STOPPED (Killed by Docker/OS)",
                 code := codeS, returnCode := rc, output := stdout, err := stderr }],
      result := HResult.response 500
        (Resp.outErr stdout (strLit "Execution stopped: CPU or memory exceeded or killed.")) }
  else if rc ≠ 0 then
    { launches := [launch],
      logs := [{ time := now, status := strLit "RUNTIME ERROR",
                 code := codeS, returnCode := rc, output := stdout, err := stderr }],
      result := HResult.response 400 (Resp.outErr stdout stderr) }
  else
    { launches := [launch],
      logs := [{ time := now, status := strLit "SUCCESS",
                 code := codeS, returnCode := rc, output := stdout, err := stderr }],
      result := HResult.response 200 (Resp.outErr stdout []) }

/-- The `try` body of `run_code` (app.py 85-168). -/
def runCodeBody (env : RunEnv) : BodyOut :=
  match env.getJson with
  | GetJsonR.exc msg => { result := HResult.raised msg }
  | GetJsonR.val b? =>
    let body := b?.getD {}
    match (body.code).getD (JVal.str []) with
    | JVal.notStr =>
      { result := HResult.response 400
          (Resp.errOnly (strLit "Field \x27code\x27 must be a string.")) }
    | JVal.str codeS =>
      if codeS.length > MAX_CODE_LENGTH then
        { result := HResult.response 400
            (Resp.errOnly (strLit "Code too long. Max 5000 chars allowed.")) }
      else
        let containerName := strLit "safe_exec_" ++ env.runId
        let image := if langIsJs body.language then DOCKER_IMAGE_NODE else DOCKER_IMAGE_PY
        let runCmd : List Str :=
          if langIsJs body.language then [strLit "node", strLit "-"]
          else [strLit "python", strLit "-"]
        let launch : LaunchSpec :=
          { argv := dockerCommandInline containerName image runCmd,
            stdin := some (utf8Encode codeS) }
        match env.subproc with
        | SubprocR.timeoutExpired =>
          { launches := [launch],
            rmCalls := [{ name := containerName, timeoutSec := DOCKER_SUBPROCESS_TIMEOUT }],
            logs := [{ time := env.now, status := strLit "TIMEOUT", code := codeS,
                       returnCode := -1, output := [], err := strLit "Execution timed out" }],
            result := HResult.response 200
              (Resp.outErr [] (strLit "Execution timed out after 10 seconds.")) }
        | SubprocR.fileNotFound msg =>
          { launches := [launch],
            logs := [{ time := env.now, status := strLit "SYSTEM ERROR", code := codeS,
                       returnCode := -1, output := [], err := msg }],
            result := HResult.response 500
              (Resp.errOnly (strLit "Docker not found on the server. Ensure docker is installed and on PATH.")) }
        | SubprocR.exc msg =>
          { launches := [launch],
            logs := [{ time := env.now, status := strLit "SYSTEM ERROR", code := codeS,
                       returnCode := -1, output := [], err := msg }],
            result := HResult.response 500 (Resp.errOnly msg) }
        | SubprocR.completed rc outB errB => inlineFinish env.now codeS launch rc outB errB

/-- app.py `run_code` (lines 79-171): acquire the semaphore with a timeout
(429 on failure); otherwise run the body, whose `finally` releases exactly
once on every exit path, normal or exceptional. -/
def runCode (env : RunEnv) : HandlerRun :=
  if env.acquireSucceeds then
    let r := runCodeBody env
    { acquired := true, releases := 1, launches := r.launches, rmCalls := r.rmCalls,
      logs := r.logs, tempDirCreated := r.tempDirCreated, rmtreeCalls := 0,
      result := r.result }
  else
    { acquired := false, releases := 0, launches := [], rmCalls := [], logs := [],
      tempDirCreated := false, rmtreeCalls := 0,
      result := HResult.response 429 (Resp.errOnly (strLit "Server busy. Try again later.")) }

/-- The environment of one `upload_zip` invocation. -/
structure ZipEnv where
  acquireSucceeds : Bool
  hasFile : Bool
  runId : Str
  tempDir : Str
  zipValid : Bool
  hasMainPy : Bool
  hasIndexJs : Bool
  subproc : ZSubprocR
  rmFails : Bool
deriving DecidableEq

/-- The `try` body of `upload_zip` (app.py 196-268). -/
def uploadZipBody (env : ZipEnv) : BodyOut :=
  if env.hasFile = false then
    { result := HResult.response 400 (Resp.errOnly (strLit "No file uploaded")) }
  else if env.zipValid = false then
    { tempDirCreated := true,
      result := HResult.response 400 (Resp.errOnly (strLit "Invalid ZIP file")) }
  else if env.hasMainPy || env.hasIndexJs then
    let image := if env.hasMainPy then DOCKER_IMAGE_PY else DOCKER_IMAGE_NODE
    let runCmd : List Str :=
      if env.hasMainPy then [strLit "python", strLit "/app/main.py"]
      else [strLit "node", strLit "/app/index.js"]
    let containerName := strLit "safe_zip_" ++ env.runId
    let launch : LaunchSpec :=
      { argv := dockerCommandZip containerName env.tempDir image runCmd }
    match env.subproc with
    | ZSubprocR.timeoutExpired =>
      { tempDirCreated := true, launches := [launch],
        rmCalls := [{ name := containerName, timeoutSec := DOCKER_SUBPROCESS_TIMEOUT }],
        result := HResult.response 200
          (Resp.outErr [] (strLit "Execution timed out after 10 seconds.")) }
    | ZSubprocR.fileNotFound =>
      { tempDirCreated := true, launches := [launch],
        result := HResult.response 500
          (Resp.errOnly (strLit "Docker not found on the server. Ensure docker is installed and on PATH.")) }
    | ZSubprocR.exc msg =>
      { tempDirCreated := true, launches := [launch], result := HResult.raised msg }
    | ZSubprocR.completed rc out err =>
      { tempDirCreated := true, launches := [launch],
        result := HResult.response 200
          (Resp.zipResult (_truncate (some out)) (_truncate (some err)) rc) }
  else
    { tempDirCreated := true,
      result := HResult.response 400
        (Resp.errOnly (strLit "ZIP must contain main.py or index.js")) }

/-- app.py `upload_zip` (lines 189-277): acquire the semaphore with a timeout
(429 on failure); otherwise run the body, whose `finally` removes the temp
directory (when one was created) and releases, on every exit path. -/
def uploadZip (env : ZipEnv) : HandlerRun :=
  if env.acquireSucceeds then
    let r := uploadZipBody env
    { acquired := true, releases := 1, launches := r.launches, rmCalls := r.rmCalls,
      logs := r.logs, tempDirCreated := r.tempDirCreated,
      rmtreeCalls := if r.tempDirCreated then 1 else 0, result := r.result }
  else
    { acquired := false, releases := 0, launches := [], rmCalls := [], logs := [],
      tempDirCreated := false, rmtreeCalls := 0,
      result := HResult.response 429 (Resp.errOnly (strLit "Server busy. Try again later.")) }

/-- The abstract outcome taxonomy of §4.5 of the spec. -/
inductive Status
  | timeout
  | killed
  | runtimeError
  | success
deriving DecidableEq

/-- Modelled from the spec: the `ResultClassifier` priority table of §4.5,
written from the spec's words for refinement comparison with the code. -/
def classifierSpec (timedOut : Bool) (exitCode : Int) (stdout stderr : Str) : Status :=
  if timedOut then Status.timeout
  else if exitCode ≠ 0 ∧ stdout = [] ∧ stderr = [] then Status.killed
  else if exitCode ≠ 0 then Status.runtimeError
  else Status.success

/-- The status string the code writes for each abstract outcome. -/
def statusName : Status → Str
  | Status.timeout => strLit "TIMEOUT"
  | Status.killed => strLit "EXECUTION STOPPED (Killed by Docker/OS)"
  | Status.runtimeError => strLit "RUNTIME ERROR"
  | Status.success => strLit "SUCCESS"

/-- The phase of one request-handling thread with respect to the semaphore. -/
inductive TState
  | idle
  | holding
  | done
  | rejected
deriving DecidableEq

/-- Shared state of the admission gate: the semaphore counter (`sema`,
app.py 17) together with the phases of the request threads. -/
structure GateSys where
  avail : Nat
  threads : List TState
deriving DecidableEq

/-- Number of threads currently holding a permit. -/
def countHolding (s : GateSys) : Nat := s.threads.countP (· == TState.holding)

/-- Initial state: the counter at `MAX_PARALLEL_CONTAINERS`, `m` idle threads. -/
def gateInit (m : Nat) : GateSys :=
  { avail := MAX_PARALLEL_CONTAINERS, threads := List.replicate m TState.idle }

/-- Interleaved steps of the request threads against the semaphore:
`sema.acquire(timeout=30)` either succeeds (counter positive, decrement) or
comes back `False` (thread rejected with 429); `sema.release()` in a holder's
`finally` increments the counter. -/
inductive GateStep : GateSys → GateSys → Prop
  | acquireOk (s : GateSys) (i : Nat)
      (h : s.threads[i]? = some TState.idle) (hv : 0 < s.avail) :
      GateStep s { avail := s.avail - 1, threads := s.threads.set i TState.holding }
  | acquireBusy (s : GateSys) (i : Nat)
      (h : s.threads[i]? = some TState.idle) :
      GateStep s { avail := s.avail, threads := s.threads.set i TState.rejected }
  | release (s : GateSys) (i : Nat)
      (h : s.threads[i]? = some TState.holding) :
      GateStep s { avail := s.avail + 1, threads := s.threads.set i TState.done }

/-- States reachable from `m` idle threads by interleaved acquire/release steps. -/
def GateReachable (m : Nat) (s : GateSys) : Prop :=
  Relation.ReflTransGen GateStep (gateInit m) s

/-- Environment for C3's witness: the Flask JSON parse raises, so the inline
handler body ends in an uncaught exception. -/
def rEnvRaise : RunEnv :=
  { acquireSucceeds := true, getJson := GetJsonR.exc (strLit "boom"),
    runId := strLit "abcdefabcdef", now := strLit "t0",
    subproc := SubprocR.completed 0 [] [], rmFails := false }

/-- Environment for C3's witness: the archive subprocess call raises an
uncaught exception partway through the body. -/
def zEnvRaise : ZipEnv :=
  { acquireSucceeds := true, hasFile := true, runId := strLit "abcdefabcdef",
    tempDir := strLit "/tmp/upload_r", zipValid := true, hasMainPy := true,
    hasIndexJs := false, subproc := ZSubprocR.exc (strLit "boom"), rmFails := false }

/-- Environment of C1's counterexample: a valid archive upload whose sandbox
process completes with exit code 137 and both streams empty — the exact
pattern the claim says must be classified `KILLED`. -/
def zEnvKilled : ZipEnv :=
  { acquireSucceeds := true, hasFile := true, runId := strLit "0a1b2c3d4e5f",
    tempDir := strLit "/tmp/upload_k", zipValid := true, hasMainPy := true,
    hasIndexJs := false, subproc := ZSubprocR.completed 137 [] [], rmFails := false }

/-- Environment of C1's witness: an inline run whose subprocess completes with
exit code 137 and both streams empty. -/
def rEnvKilledIn : RunEnv :=
  { acquireSucceeds := true,
    getJson := GetJsonR.val (some { code := some (JVal.str (strLit "x")), language := none }),
    runId := strLit "deadbeef0123", now := strLit "2025-01-01 00:00:00",
    subproc := SubprocR.completed 137 [] [], rmFails := false }

/-- An inline request body of 5001 characters, one over `MAX_CODE_LENGTH`. -/
def longCode : Str := List.replicate 5001 97

/-- Environment of C4's counterexample: an oversized inline request with the
semaphore available. -/
def rEnvLong : RunEnv :=
  { acquireSucceeds := true,
    getJson := GetJsonR.val (some { code := some (JVal.str longCode), language := none }),
    runId := strLit "aaaabbbbcccc", now := strLit "t0",
    subproc := SubprocR.completed 0 [] [], rmFails := false }

/-- Environment of C6's counterexample: a valid archive upload that launches
and completes successfully. -/
def zEnvOkRun : ZipEnv :=
  { acquireSucceeds := true, hasFile := true, runId := strLit "c6c6c6c6c6c6",
    tempDir := strLit "/tmp/upload_o", zipValid := true, hasMainPy := true,
    hasIndexJs := false, subproc := ZSubprocR.completed 0 (strLit "hi") [],
    rmFails := false }

/-- Environment of C6's witness: a successful inline execution. -/
def rEnvOkRun : RunEnv :=
  { acquireSucceeds := true,
    getJson := GetJsonR.val (some { code := some (JVal.str (strLit "print(1)")), language := none }),
    runId := strLit "abcd1234abcd", now := strLit "t2",
    subproc := SubprocR.completed 0 [104, 105, 10] [], rmFails := false }

/-- Environment of C5's counterexample: a valid archive upload that times out
and whose forced-termination cleanup attempt itself fails. -/
def zEnvTimeoutFail : ZipEnv :=
  { acquireSucceeds := true, hasFile := true, runId := strLit "feedfacef00d",
    tempDir := strLit "/tmp/upload_t", zipValid := true, hasMainPy := true,
    hasIndexJs := false, subproc := ZSubprocR.timeoutExpired, rmFails := true }

/-- Environment of C5's witness: an inline request that times out, with the
cleanup attempt failing. -/
def rEnvTimeout : RunEnv :=
  { acquireSucceeds := true,
    getJson := GetJsonR.val (some { code := some (JVal.str (strLit "loop()")), language := none }),
    runId := strLit "0123456789ab", now := strLit "t1",
    subproc := SubprocR.timeoutExpired, rmFails := true }

/-- Environment of C8's witness: an archive containing both `main.py` and
`index.js`. -/
def zEnvBoth : ZipEnv :=
  { acquireSucceeds := true, hasFile := true, runId := strLit "bothbothboth",
    tempDir := strLit "/tmp/upload_b", zipValid := true, hasMainPy := true,
    hasIndexJs := true, subproc := ZSubprocR.completed 0 [] [], rmFails := false }

/-- Environment of C10's witness: an inline request whose "code" field is a
non-string JSON value. -/
def rEnvNotStr : RunEnv :=
  { acquireSucceeds := true,
    getJson := GetJsonR.val (some { code := some JVal.notStr, language := none }),
    runId := strLit "c10c10c10c10", now := strLit "t3",
    subproc := SubprocR.completed 0 [] [], rmFails := false }

theorem countP_set_of_getElem (p : TState → Bool) :
    ∀ (l : List TState) (i : Nat) (a b : TState), l[i]? = some a →
      (l.set i b).countP p + (if p a then 1 else 0)
        = l.countP p + (if p b then 1 else 0)
  | [], i, a, b, h => by simp at h
  | x :: xs, 0, a, b, h => by
    simp only [List.getElem?_cons_zero, Option.some.injEq] at h
    subst h
    simp only [List.set_cons_zero, List.countP_cons]
    omega
  | x :: xs, i + 1, a, b, h => by
    simp only [List.getElem?_cons_succ] at h
    have ih := countP_set_of_getElem p xs i a b h
    simp only [List.set_cons_succ, List.countP_cons]
    omega

theorem gate_step_inv {s t : GateSys} (h : GateStep s t)
    (hinv : s.avail + countHolding s = MAX_PARALLEL_CONTAINERS) :
    t.avail + countHolding t = MAX_PARALLEL_CONTAINERS := by
  cases h with
  | acquireOk i hg hv =>
    have hc := countP_set_of_getElem (· == TState.holding) s.threads i
      TState.idle TState.holding hg
    simp only [countHolding] at hinv ⊢
    simp at hc
    omega
  | acquireBusy i hg =>
    have hc := countP_set_of_getElem (· == TState.holding) s.threads i
      TState.idle TState.rejected hg
    simp only [countHolding] at hinv ⊢
    simp at hc
    omega
  | release i hg =>
    have hc := countP_set_of_getElem (· == TState.holding) s.threads i
      TState.holding TState.done hg
    simp only [countHolding] at hinv ⊢
    simp at hc
    omega

theorem countP_holding_replicate_idle (m : Nat) :
    (List.replicate m TState.idle).countP (· == TState.holding) = 0 := by
  induction m with
  | zero => rfl
  | succ n ih => simp [List.replicate_succ, List.countP_cons, ih]

theorem gate_reachable_inv (m : Nat) (s : GateSys) (h : GateReachable m s) :
    s.avail + countHolding s = MAX_PARALLEL_CONTAINERS := by
  induction h with
  | refl => simp [gateInit, countHolding, countP_holding_replicate_idle]
  | tail _ hstep ih => exact gate_step_inv hstep ih

theorem uploadZipBody_logs (env : ZipEnv) : (uploadZipBody env).logs = [] := by
  unfold uploadZipBody
  repeat' split
  all_goals rfl

theorem uploadZip_logs (env : ZipEnv) : (uploadZip env).logs = [] := by
  unfold uploadZip
  split
  · simp [uploadZipBody_logs]
  · rfl

/-- C7: the sanitizer `_truncate` is a total function of its input text:
it returns any text whose UTF-8 encoding fits in `MAX_OUTPUT_BYTES`
unchanged (and is hence idempotent on such text), truncates longer text at
the byte cap and appends the fixed marker, and its output length never
exceeds the cap plus the marker length. -/
theorem C7_sanitizer_bounds (s : Str) :
    (_truncate (some s)).length
        ≤ MAX_OUTPUT_BYTES + (strLit "\n\n[output truncated]").length
    ∧ _truncate (some s)
        = (if (utf8Encode s).length ≤ MAX_OUTPUT_BYTES then s
           else utf8DecodeReplace ((utf8Encode s).take MAX_OUTPUT_BYTES)
                ++ strLit "\n\n[output truncated]")
    ∧ ((utf8Encode s).length ≤ MAX_OUTPUT_BYTES →
        _truncate (some (_truncate (some s))) = _truncate (some s)) := by
  by_cases h : (utf8Encode s).length ≤ MAX_OUTPUT_BYTES
  · have hid : _truncate (some s) = s := by
      simp only [_truncate]
      rw [if_neg (by omega)]
    refine ⟨?_, ?_, ?_⟩
    · rw [hid]
      have := length_le_utf8Encode_length s
      omega
    · rw [hid, if_pos h]
    · intro _
      rw [hid]
      exact hid
  · have hlong : _truncate (some s)
        = utf8DecodeReplace ((utf8Encode s).take MAX_OUTPUT_BYTES)
          ++ strLit "\n\n[output truncated]" := by
      simp only [_truncate]
      rw [if_pos (by omega)]
    refine ⟨?_, ?_, fun hc => absurd hc h⟩
    · rw [hlong]
      have h1 := utf8DecodeReplace_length ((utf8Encode s).take MAX_OUTPUT_BYTES)
      have h2 : ((utf8Encode s).take MAX_OUTPUT_BYTES).length ≤ MAX_OUTPUT_BYTES := by
        rw [List.length_take]
        omega
      simp only [List.length_append]
      omega
    · rw [hlong, if_neg h]

theorem C7_sanitizer_bounds_witness :
    _truncate (some (strLit "hi")) = strLit "hi"
    ∧ _truncate (some (_truncate (some (strLit "hi")))) = _truncate (some (strLit "hi")) := by
  have h := C7_sanitizer_bounds (strLit "hi")
  refine ⟨?_, h.2.2 (by decide)⟩
  rw [h.2.1, if_pos (by decide)]

/-- C3: whenever the admission-gate acquire succeeds, the matching release
runs exactly once before the handler finishes, on every exit path of either
handler (success, validation rejection, timeout, system error, or an
exception raised partway through the body); and no release happens when the
acquire was rejected. -/
theorem C3_release_exactly_once (renv : RunEnv) (zenv : ZipEnv) :
    ((runCode renv).acquired = true → (runCode renv).releases = 1)
    ∧ ((runCode renv).acquired = false → (runCode renv).releases = 0)
    ∧ ((uploadZip zenv).acquired = true → (uploadZip zenv).releases = 1)
    ∧ ((uploadZip zenv).acquired = false → (uploadZip zenv).releases = 0) := by
  unfold runCode uploadZip
  refine ⟨?_, ?_, ?_, ?_⟩
  all_goals split
  all_goals simp

theorem C3_release_exactly_once_witness :
    (runCode rEnvRaise).releases = 1 ∧ (uploadZip zEnvRaise).releases = 1 := by
  have h := C3_release_exactly_once rEnvRaise zEnvRaise
  exact ⟨h.1 (by decide), h.2.2.1 (by decide)⟩

/-- C2: over every interleaving of concurrent inline and archive requests,
the number of simultaneously-held permits never exceeds
`MAX_PARALLEL_CONTAINERS = 5`; and in each handler the acquire attempt either
obtains a permit or the request is rejected with the 429 busy response
(`sema.acquire(timeout=30)` returns a boolean, it cannot block forever). -/
theorem C2_admission_bound (m : Nat) (s : GateSys) (h : GateReachable m s) :
    countHolding s ≤ MAX_PARALLEL_CONTAINERS
    ∧ (∀ env : RunEnv, (runCode env).acquired = true
        ∨ (runCode env).result
            = HResult.response 429 (Resp.errOnly (strLit "Server busy. Try again later.")))
    ∧ (∀ env : ZipEnv, (uploadZip env).acquired = true
        ∨ (uploadZip env).result
            = HResult.response 429 (Resp.errOnly (strLit "Server busy. Try again later."))) := by
  refine ⟨?_, ?_, ?_⟩
  · have := gate_reachable_inv m s h
    omega
  · intro env
    unfold runCode
    split
    · left; rfl
    · right; rfl
  · intro env
    unfold uploadZip
    split
    · left; rfl
    · right; rfl

theorem C2_admission_bound_witness :
    countHolding (gateInit 2) ≤ MAX_PARALLEL_CONTAINERS :=
  (C2_admission_bound 2 (gateInit 2) Relation.ReflTransGen.refl).1

/-- C9: whenever `upload_zip` created its temporary project directory, the
`finally` block removes it exactly once, on every exit path and regardless of
outcome; and no removal is attempted when no directory was created. -/
theorem C9_tempdir_cleanup (zenv : ZipEnv) :
    ((uploadZip zenv).tempDirCreated = true → (uploadZip zenv).rmtreeCalls = 1)
    ∧ ((uploadZip zenv).tempDirCreated = false → (uploadZip zenv).rmtreeCalls = 0) := by
  unfold uploadZip
  split
  · constructor <;> intro h <;> simp_all
  · simp

theorem C9_tempdir_cleanup_witness :
    (uploadZip zEnvRaise).tempDirCreated = true ∧ (uploadZip zEnvRaise).rmtreeCalls = 1 := by
  refine ⟨by decide, (C9_tempdir_cleanup zEnvRaise).1 (by decide)⟩

theorem inlineFinish_status (now codeS : Str) (launch : LaunchSpec) (rc : Int)
    (outB errB : List Nat) :
    (inlineFinish now codeS launch rc outB errB).logs.map LogEntry.status
      = [statusName (classifierSpec false rc
          (_truncate (some (utf8DecodeReplace outB)))
          (_truncate (some (utf8DecodeReplace errB))))] := by
  unfold inlineFinish classifierSpec
  by_cases h1 : rc ≠ 0 ∧ _truncate (some (utf8DecodeReplace outB)) = []
      ∧ _truncate (some (utf8DecodeReplace errB)) = []
  · simp [h1, statusName]
  · by_cases h2 : rc ≠ 0
    · by_cases h3 : _truncate (some (utf8DecodeReplace outB)) = []
          ∧ _truncate (some (utf8DecodeReplace errB)) = []
      · exact absurd ⟨h2, h3.1, h3.2⟩ h1
      · simp [h1, h2, h3, statusName]
    · simp [h1, h2, statusName]

/-- C1 counterexample: an archive execution that completes with
`(timedOut=false, exit=137, out="", err="")` is not classified at all —
`upload_zip` returns HTTP 200 with the raw tuple and records no status —
refuting the claim that every completed inline-or-archive execution is
assigned a status by the priority order. -/
theorem C1_archive_no_status_counterexample :
    (uploadZip zEnvKilled).launches.length = 1
    ∧ (uploadZip zEnvKilled).logs = []
    ∧ (uploadZip zEnvKilled).result
        = HResult.response 200 (Resp.zipResult [] [] 137) := by decide

/-- C1 (amended): for inline executions the status is assigned exactly by the
spec's priority order — `TIMEOUT` when the deadline fired (exit code ignored),
else `KILLED` on non-zero exit with both sanitized streams empty, else
`RUNTIME_ERROR` on non-zero exit, else `SUCCESS`; archive executions assign
no status at all (they log nothing and return the raw tuple). -/
theorem C1_inline_status_priority (env : RunEnv) (b : JsonBody) (codeS : Str)
    (hacq : env.acquireSucceeds = true)
    (hjson : env.getJson = GetJsonR.val (some b))
    (hcode : b.code = some (JVal.str codeS))
    (hlen : codeS.length ≤ MAX_CODE_LENGTH) :
    (∀ rc outB errB, env.subproc = SubprocR.completed rc outB errB →
      (runCode env).logs.map LogEntry.status
        = [statusName (classifierSpec false rc
            (_truncate (some (utf8DecodeReplace outB)))
            (_truncate (some (utf8DecodeReplace errB))))])
    ∧ (env.subproc = SubprocR.timeoutExpired →
      (runCode env).logs.map LogEntry.status = [statusName Status.timeout])
    ∧ (∀ rc out err, classifierSpec true rc out err = Status.timeout)
    ∧ (∀ zenv : ZipEnv, (uploadZip zenv).logs = []) := by
  have hbody : ∀ r : BodyOut, (runCode env).logs = r.logs → True := fun _ _ => trivial
  refine ⟨?_, ?_, ?_, ?_⟩
  · intro rc outB errB hsub
    simp only [runCode, hacq, if_true]
    unfold runCodeBody
    rw [hjson]
    simp only [Option.getD_some, hcode]
    rw [if_neg (by omega)]
    rw [hsub]
    exact inlineFinish_status env.now codeS _ rc outB errB
  · intro hsub
    simp only [runCode, hacq, if_true]
    unfold runCodeBody
    rw [hjson]
    simp only [Option.getD_some, hcode]
    rw [if_neg (by omega)]
    rw [hsub]
    simp [statusName]
  · intro rc out err
    simp [classifierSpec]
  · exact uploadZip_logs

/-- C4 counterexample: an inline request whose source exceeds
`MAX_CODE_LENGTH` is rejected 400, but only after the admission gate was
reached and a permit was acquired (`sema.acquire` runs first at app.py 81,
the length check only at 93) — refuting "no permit is acquired". -/
theorem C4_gate_first_counterexample :
    (runCode rEnvLong).acquired = true
    ∧ (runCode rEnvLong).result
        = HResult.response 400 (Resp.errOnly (strLit "Code too long. Max 5000 chars allowed."))
    ∧ (runCode rEnvLong).launches = [] := by
  have hlen : MAX_CODE_LENGTH < longCode.length := by
    unfold longCode
    rw [List.length_replicate]
    decide
  unfold runCode
  rw [show rEnvLong.acquireSucceeds = true from rfl]
  simp only [if_true]
  unfold runCodeBody
  rw [show rEnvLong.getJson
      = GetJsonR.val (some { code := some (JVal.str longCode), language := none }) from rfl]
  simp only [Option.getD_some]
  rw [if_pos hlen]
  refine ⟨?_, ?_, ?_⟩ <;> trivial

/-- C4 (amended): an oversized inline request is rejected as a validation
error with no sandbox launch and no cleanup call — but the rejection happens
after a permit was acquired, and that permit is released before returning. -/
theorem C4_oversize_rejected (env : RunEnv) (b : JsonBody) (codeS : Str)
    (hacq : env.acquireSucceeds = true)
    (hjson : env.getJson = GetJsonR.val (some b))
    (hcode : b.code = some (JVal.str codeS))
    (hlen : MAX_CODE_LENGTH < codeS.length) :
    (runCode env).acquired = true
    ∧ (runCode env).result
        = HResult.response 400 (Resp.errOnly (strLit "Code too long. Max 5000 chars allowed."))
    ∧ (runCode env).launches = []
    ∧ (runCode env).rmCalls = []
    ∧ (runCode env).releases = 1 := by
  simp only [runCode, hacq, if_true]
  unfold runCodeBody
  rw [hjson]
  simp only [Option.getD_some, hcode]
  rw [if_pos hlen]
  refine ⟨?_, ?_, ?_, ?_, ?_⟩ <;> trivial

theorem C4_oversize_rejected_witness :
    (runCode rEnvLong).acquired = true
    ∧ (runCode rEnvLong).result
        = HResult.response 400 (Resp.errOnly (strLit "Code too long. Max 5000 chars allowed."))
    ∧ (runCode rEnvLong).launches = []
    ∧ (runCode rEnvLong).rmCalls = []
    ∧ (runCode rEnvLong).releases = 1 :=
  C4_oversize_rejected rEnvLong
    { code := some (JVal.str longCode), language := none } longCode
    rfl rfl rfl (by unfold longCode; rw [List.length_replicate]; decide)

theorem inlineFinish_launches (now codeS : Str) (launch : LaunchSpec) (rc : Int)
    (outB errB : List Nat) :
    (inlineFinish now codeS launch rc outB errB).launches = [launch] := by
  unfold inlineFinish
  by_cases h1 : rc ≠ 0 ∧ _truncate (some (utf8DecodeReplace outB)) = []
      ∧ _truncate (some (utf8DecodeReplace errB)) = []
  · simp [h1]
  · by_cases h2 : rc ≠ 0
    · by_cases h3 : _truncate (some (utf8DecodeReplace outB)) = []
          ∧ _truncate (some (utf8DecodeReplace errB)) = []
      · exact absurd ⟨h2, h3.1, h3.2⟩ h1
      · simp [h1, h2, h3]
    · simp [h1, h2]

theorem inlineFinish_logs_length (now codeS : Str) (launch : LaunchSpec) (rc : Int)
    (outB errB : List Nat) :
    (inlineFinish now codeS launch rc outB errB).logs.length = 1 := by
  unfold inlineFinish
  by_cases h1 : rc ≠ 0 ∧ _truncate (some (utf8DecodeReplace outB)) = []
      ∧ _truncate (some (utf8DecodeReplace errB)) = []
  · simp [h1]
  · by_cases h2 : rc ≠ 0
    · by_cases h3 : _truncate (some (utf8DecodeReplace outB)) = []
          ∧ _truncate (some (utf8DecodeReplace errB)) = []
      · exact absurd ⟨h2, h3.1, h3.2⟩ h1
      · simp [h1, h2, h3]
    · simp [h1, h2]

theorem runCodeBody_launch_or_log (env : RunEnv) :
    (runCodeBody env).launches = [] ∨ (runCodeBody env).logs.length = 1 := by
  unfold runCodeBody
  cases hj : env.getJson with
  | exc m => left; rfl
  | val b? =>
    cases hv : ((b?.getD {}).code).getD (JVal.str []) with
    | notStr => left; simp [hv]
    | str s =>
      by_cases hlen : s.length > MAX_CODE_LENGTH
      · left; simp [hv, hlen]
      · cases hs : env.subproc with
        | completed rc outB errB =>
          right
          simp [hv, hlen, hs]
          exact inlineFinish_logs_length _ _ _ _ _ _
        | timeoutExpired => right; simp [hv, hlen, hs]
        | fileNotFound m => right; simp [hv, hlen, hs]
        | exc m => right; simp [hv, hlen, hs]

theorem runCodeBody_launch_log (env : RunEnv)
    (h : (runCodeBody env).launches ≠ []) : (runCodeBody env).logs.length = 1 :=
  (runCodeBody_launch_or_log env).resolve_left h

/-- C6 counterexample: an archive execution that reaches the sandbox launch
produces zero records in the execution log — `upload_zip` never calls
`write_log` — refuting "every execution (inline or archive) produces exactly
one record". -/
theorem C6_archive_unlogged_counterexample :
    (uploadZip zEnvOkRun).launches.length = 1
    ∧ (uploadZip zEnvOkRun).logs = [] := by decide

/-- C6 (amended): every inline execution that reaches the sandbox launch
appends exactly one self-delimited block (one `write_log` entry, rendered by
`formatLog` with timestamp, status, return code, source, output and error) to
the execution log; archive executions append none. -/
theorem C6_one_log_per_inline_launch (env : RunEnv) (zenv : ZipEnv)
    (h : (runCode env).launches ≠ []) :
    ((runCode env).logs.map formatLog).length = 1
    ∧ (uploadZip zenv).logs = [] := by
  refine ⟨?_, uploadZip_logs zenv⟩
  rw [List.length_map]
  cases hA : env.acquireSucceeds with
  | false => simp [runCode, hA] at h
  | true =>
    simp only [runCode, hA, if_true] at h ⊢
    exact runCodeBody_launch_log env h

theorem C6_one_log_per_inline_launch_witness :
    ((runCode rEnvOkRun).logs.map formatLog).length = 1
    ∧ (uploadZip zEnvOkRun).logs = [] :=
  C6_one_log_per_inline_launch rEnvOkRun zEnvOkRun (by decide)

theorem runCode_timeout_eq (env : RunEnv) (b : JsonBody) (codeS : Str)
    (hacq : env.acquireSucceeds = true)
    (hjson : env.getJson = GetJsonR.val (some b))
    (hcode : b.code = some (JVal.str codeS))
    (hlen : codeS.length ≤ MAX_CODE_LENGTH)
    (ht : env.subproc = SubprocR.timeoutExpired) :
    runCode env =
      { acquired := true, releases := 1,
        launches := [{ argv := dockerCommandInline (strLit "safe_exec_" ++ env.runId)
                         (if langIsJs b.language then DOCKER_IMAGE_NODE else DOCKER_IMAGE_PY)
                         (if langIsJs b.language then [strLit "node", strLit "-"]
                          else [strLit "python", strLit "-"]),
                       stdin := some (utf8Encode codeS) }],
        rmCalls := [{ name := strLit "safe_exec_" ++ env.runId,
                      timeoutSec := DOCKER_SUBPROCESS_TIMEOUT }],
        logs := [{ time := env.now, status := strLit "TIMEOUT", code := codeS,
                   returnCode := -1, output := [], err := strLit "Execution timed out" }],
        tempDirCreated := false, rmtreeCalls := 0,
        result := HResult.response 200
          (Resp.outErr [] (strLit "Execution timed out after 10 seconds.")) } := by
  simp only [runCode, hacq, if_true]
  unfold runCodeBody
  rw [hjson]
  simp only [Option.getD_some, hcode]
  rw [if_neg (by omega)]
  rw [ht]

theorem uploadZip_timeout_eq (zenv : ZipEnv)
    (hacq : zenv.acquireSucceeds = true) (hfile : zenv.hasFile = true)
    (hzip : zenv.zipValid = true) (hmain : zenv.hasMainPy = true)
    (ht : zenv.subproc = ZSubprocR.timeoutExpired) :
    uploadZip zenv =
      { acquired := true, releases := 1,
        launches := [{ argv := dockerCommandZip (strLit "safe_zip_" ++ zenv.runId)
                         zenv.tempDir DOCKER_IMAGE_PY [strLit "python", strLit "/app/main.py"],
                       stdin := none }],
        rmCalls := [{ name := strLit "safe_zip_" ++ zenv.runId,
                      timeoutSec := DOCKER_SUBPROCESS_TIMEOUT }],
        logs := [], tempDirCreated := true, rmtreeCalls := 1,
        result := HResult.response 200
          (Resp.outErr [] (strLit "Execution timed out after 10 seconds.")) } := by
  simp only [uploadZip, hacq, if_true]
  unfold uploadZipBody
  simp [hfile, hzip, hmain, ht]

/-- C5 counterexample: on an archive timeout whose cleanup attempt fails
(`rmFails = true`), the forced-termination call was issued but nothing at all
is written to the execution log — the cleanup error is swallowed by the bare
`except Exception: pass` and is not logged, refuting the claim that such
errors are "swallowed and only logged". -/
theorem C5_cleanup_unlogged_counterexample :
    zEnvTimeoutFail.rmFails = true
    ∧ (uploadZip zEnvTimeoutFail).rmCalls
        = [{ name := strLit "safe_zip_" ++ strLit "feedfacef00d",
             timeoutSec := DOCKER_SUBPROCESS_TIMEOUT }]
    ∧ (uploadZip zEnvTimeoutFail).logs = []
    ∧ (uploadZip zEnvTimeoutFail).result
        = HResult.response 200
            (Resp.outErr [] (strLit "Execution timed out after 10 seconds.")) := by decide

/-- C5 (amended): when the wall-clock deadline elapses first, both handlers
report a timed-out result carrying no exit code, issue exactly one
forced-termination request keyed by the run's unique container name under the
larger secondary timeout (12 s versus the 10 s primary deadline), and a
failure of that cleanup attempt is silently swallowed: it is not surfaced to
the caller, does not change the timeout classification, and — unlike the
claim's wording — is not logged either (the inline handler logs only the
TIMEOUT event itself; the archive handler logs nothing). -/
theorem C5_timeout_cleanup (env : RunEnv) (b : JsonBody) (codeS : Str) (zenv : ZipEnv)
    (hacq : env.acquireSucceeds = true)
    (hjson : env.getJson = GetJsonR.val (some b))
    (hcode : b.code = some (JVal.str codeS))
    (hlen : codeS.length ≤ MAX_CODE_LENGTH)
    (ht : env.subproc = SubprocR.timeoutExpired)
    (hz1 : zenv.acquireSucceeds = true) (hz2 : zenv.hasFile = true)
    (hz3 : zenv.zipValid = true) (hz4 : zenv.hasMainPy = true)
    (hz5 : zenv.subproc = ZSubprocR.timeoutExpired) :
    (runCode env).rmCalls
      = [{ name := strLit "safe_exec_" ++ env.runId, timeoutSec := DOCKER_SUBPROCESS_TIMEOUT }]
    ∧ (runCode env).result
        = HResult.response 200 (Resp.outErr [] (strLit "Execution timed out after 10 seconds."))
    ∧ (runCode env).logs.map LogEntry.status = [statusName Status.timeout]
    ∧ runCode { env with rmFails := true } = runCode { env with rmFails := false }
    ∧ EXECUTION_TIMEOUT < DOCKER_SUBPROCESS_TIMEOUT
    ∧ (uploadZip zenv).rmCalls
        = [{ name := strLit "safe_zip_" ++ zenv.runId, timeoutSec := DOCKER_SUBPROCESS_TIMEOUT }]
    ∧ (uploadZip zenv).result
        = HResult.response 200 (Resp.outErr [] (strLit "Execution timed out after 10 seconds."))
    ∧ uploadZip { zenv with rmFails := true } = uploadZip { zenv with rmFails := false } := by
  have h1 := runCode_timeout_eq env b codeS hacq hjson hcode hlen ht
  have h1t := runCode_timeout_eq { env with rmFails := true } b codeS hacq hjson hcode hlen ht
  have h1f := runCode_timeout_eq { env with rmFails := false } b codeS hacq hjson hcode hlen ht
  have h2 := uploadZip_timeout_eq zenv hz1 hz2 hz3 hz4 hz5
  have h2t := uploadZip_timeout_eq { zenv with rmFails := true } hz1 hz2 hz3 hz4 hz5
  have h2f := uploadZip_timeout_eq { zenv with rmFails := false } hz1 hz2 hz3 hz4 hz5
  refine ⟨?_, ?_, ?_, ?_, by decide, ?_, ?_, ?_⟩
  · rw [h1]
  · rw [h1]
  · rw [h1]; simp [statusName]
  · rw [h1t, h1f]
  · rw [h2]
  · rw [h2]
  · rw [h2t, h2f]

theorem C5_timeout_cleanup_witness :
    (runCode rEnvTimeout).rmCalls
      = [{ name := strLit "safe_exec_" ++ strLit "0123456789ab",
           timeoutSec := DOCKER_SUBPROCESS_TIMEOUT }]
    ∧ (uploadZip zEnvTimeoutFail).result
        = HResult.response 200
            (Resp.outErr [] (strLit "Execution timed out after 10 seconds.")) := by
  have h := C5_timeout_cleanup rEnvTimeout
    { code := some (JVal.str (strLit "loop()")), language := none } (strLit "loop()")
    zEnvTimeoutFail rfl rfl rfl (by decide) rfl rfl rfl rfl rfl rfl
  exact ⟨h.1, h.2.2.2.2.2.2.1⟩

/-- C8: archive entry-point resolution checks the recognized filenames in
priority order — `main.py` before `index.js` — and the first match selects
both the runtime image and the run command, so a project containing both
files always runs `main.py` and never both; a project containing neither is
rejected as a validation error with no sandbox launch. -/
theorem C8_entry_priority (zenv : ZipEnv)
    (hacq : zenv.acquireSucceeds = true) (hfile : zenv.hasFile = true)
    (hzip : zenv.zipValid = true) :
    (zenv.hasMainPy = true →
      (uploadZip zenv).launches.map LaunchSpec.argv
        = [dockerCommandZip (strLit "safe_zip_" ++ zenv.runId) zenv.tempDir
             DOCKER_IMAGE_PY [strLit "python", strLit "/app/main.py"]])
    ∧ (zenv.hasMainPy = false → zenv.hasIndexJs = true →
      (uploadZip zenv).launches.map LaunchSpec.argv
        = [dockerCommandZip (strLit "safe_zip_" ++ zenv.runId) zenv.tempDir
             DOCKER_IMAGE_NODE [strLit "node", strLit "/app/index.js"]])
    ∧ (zenv.hasMainPy = false → zenv.hasIndexJs = false →
      (uploadZip zenv).launches = []
      ∧ (uploadZip zenv).result
          = HResult.response 400
              (Resp.errOnly (strLit "ZIP must contain main.py or index.js"))) := by
  refine ⟨?_, ?_, ?_⟩
  · intro hm
    cases hs : zenv.subproc <;>
      simp [uploadZip, uploadZipBody, hacq, hfile, hzip, hm, hs]
  · intro hm hj
    cases hs : zenv.subproc <;>
      simp [uploadZip, uploadZipBody, hacq, hfile, hzip, hm, hj, hs]
  · intro hm hj
    simp [uploadZip, uploadZipBody, hacq, hfile, hzip, hm, hj]

theorem C8_entry_priority_witness :
    (uploadZip zEnvBoth).launches.map LaunchSpec.argv
      = [dockerCommandZip (strLit "safe_zip_" ++ strLit "bothbothboth")
           (strLit "/tmp/upload_b") DOCKER_IMAGE_PY
           [strLit "python", strLit "/app/main.py"]] :=
  (C8_entry_priority zEnvBoth rfl rfl rfl).1 rfl

/-- C10: an inline request whose JSON body carries a non-string "code" field
is rejected 400 with the fixed message and no sandbox is launched, while a
missing JSON body or a missing "code" field defaults to the empty string and
proceeds to a sandbox launch fed the empty program on stdin. -/
theorem C10_code_field_validation (env : RunEnv) (b : JsonBody)
    (hacq : env.acquireSucceeds = true) :
    (env.getJson = GetJsonR.val (some b) → b.code = some JVal.notStr →
      (runCode env).result
        = HResult.response 400 (Resp.errOnly (strLit "Field \x27code\x27 must be a string."))
      ∧ (runCode env).launches = [])
    ∧ (env.getJson = GetJsonR.val none →
      (runCode env).launches.map LaunchSpec.stdin = [some (utf8Encode [])])
    ∧ (env.getJson = GetJsonR.val (some b) → b.code = none →
      (runCode env).launches.map LaunchSpec.stdin = [some (utf8Encode [])]) := by
  have h0 : ¬ ([] : Str).length > MAX_CODE_LENGTH := by decide
  refine ⟨?_, ?_, ?_⟩
  · intro hj hc
    simp [runCode, runCodeBody, hacq, hj, hc]
  · intro hj
    cases hs : env.subproc <;>
      simp [runCode, runCodeBody, hacq, hj, hs, h0, inlineFinish_launches]
  · intro hj hc
    cases hs : env.subproc <;>
      simp [runCode, runCodeBody, hacq, hj, hc, hs, h0, inlineFinish_launches]

theorem C10_code_field_validation_witness :
    (runCode rEnvNotStr).result
      = HResult.response 400 (Resp.errOnly (strLit "Field \x27code\x27 must be a string."))
    ∧ (runCode rEnvNotStr).launches = [] :=
  (C10_code_field_validation rEnvNotStr
    { code := some JVal.notStr, language := none } rfl).1 rfl rfl

theorem C1_inline_status_priority_witness :
    (runCode rEnvKilledIn).logs.map LogEntry.status
      = [statusName (classifierSpec false 137
          (_truncate (some (utf8DecodeReplace [])))
          (_truncate (some (utf8DecodeReplace []))))] := by
  exact (C1_inline_status_priority rEnvKilledIn
    { code := some (JVal.str (strLit "x")), language := none } (strLit "x")
    rfl rfl rfl (by decide)).1 137 [] [] rfl

